import Mathlib

/-!
Verification of the storage subsystem of `cc-switch` (crate `cc-switch-core`),
as a shallow embedding in Lean 4.

The embedding covers:
* `database/backup.rs`   — `sanitize_import_sql`, `import_sql`, `backup_database_file`,
  `cleanup_db_backups`, `dump_sql`, `format_sql_value`;
* `database/dao/providers.rs` — the provider DAO (`get_all_providers`,
  `get_current_provider`, `get_provider_by_id`, `save_provider`, `delete_provider`,
  `set_current_provider`);
* `database/schema.rs`   — `create_tables_on_conn`, `apply_schema_migrations_on_conn`,
  the migration ladder and its helpers.

SQLite itself is external to the repository: where a claim depends on the engine
(executing an arbitrary SQL batch), that step is a parameter of the model; where it
depends only on well-documented engine behaviour (row order of `SELECT` without
`ORDER BY` is insertion order for these tables, `UPDATE` touching zero rows is not
an error, `NULL` sorts first in ascending `ORDER BY`), that behaviour is built into
the model and noted at the definition.

Rust `String` operations used by the code are byte-oriented but only ever applied
with ASCII separators and ASCII patterns, so the character-list level functions
below have the same behaviour.
-/

/-- Mirror of `CoreError` (`error.rs`), restricted to the variants the storage
subsystem constructs. -/
inductive CoreError where
  | database (msg : String)
  | config (msg : String)
  deriving Repr, DecidableEq

deriving instance DecidableEq for Except

/-! ### Character-level string helpers

These mirror the Rust standard-library operations used by `backup.rs` and
`schema.rs`: `str::split(';')`, `str::trim`, `to_ascii_lowercase`,
`str::contains`, `eq_ignore_ascii_case`, `str::replace`. -/

/-- `str::split(sep)`: split a character list at every occurrence of `sep`.
Always returns `n+1` pieces for `n` separators (empty pieces included), exactly
like Rust's `split`. -/
def splitOnChar (sep : Char) : List Char → List (List Char)
  | [] => [[]]
  | c :: rest =>
    let r := splitOnChar sep rest
    if c = sep then
      [] :: r
    else
      match r with
      | [] => [[c]]
      | h :: t => (c :: h) :: t

/-- `str::trim`: drop whitespace from both ends. -/
def trimChars (l : List Char) : List Char :=
  ((l.dropWhile Char.isWhitespace).reverse.dropWhile Char.isWhitespace).reverse

/-- `u8::to_ascii_lowercase` on one character. -/
def asciiLowerChar (c : Char) : Char :=
  if 'A' ≤ c ∧ c ≤ 'Z' then Char.ofNat (c.toNat + 32) else c

/-- `str::to_ascii_lowercase`. -/
def asciiLowerChars (l : List Char) : List Char :=
  l.map asciiLowerChar

/-- Whether `pat` occurs at the start of `l`. -/
def startsWithChars : List Char → List Char → Bool
  | [], _ => true
  | _ :: _, [] => false
  | p :: ps, c :: cs => p = c && startsWithChars ps cs

/-- `str::contains(pat)`: whether `pat` occurs as a contiguous substring of `l`. -/
def containsSubChars (pat : List Char) : List Char → Bool
  | [] => startsWithChars pat []
  | l@(_ :: rest) => startsWithChars pat l || containsSubChars pat rest

/-- The banned substring of `sanitize_import_sql` (`backup.rs` line 99),
already lowercase in the source. -/
def sqliteSequencePat : List Char := "sqlite_sequence".data

/-- One iteration of the `for stmt in sql.split(';')` loop of
`sanitize_import_sql` (`backup.rs` lines 101–113). -/
def sanitizeStep (cleaned : List Char) (stmt : List Char) : List Char :=
  let trimmed := trimChars stmt
  if trimmed.isEmpty then
    cleaned
  else if containsSubChars sqliteSequencePat (asciiLowerChars trimmed) then
    cleaned
  else
    cleaned ++ trimmed ++ [';', '\n']

/-- `Database::sanitize_import_sql` (`backup.rs` lines 97–116): split the SQL text
on `';'`; skip pieces that trim to nothing and pieces whose ASCII-lowercased trim
contains `"sqlite_sequence"`; re-emit every kept piece trimmed, followed by
`";\n"`. -/
def sanitize_import_sql (sql : String) : String :=
  String.mk <| (splitOnChar ';' sql.data).foldl sanitizeStep []

/-- The statement filter of `sanitize_import_sql`, stated declaratively: keep a
(trimmed) statement iff it is non-empty and its ASCII-lowercase form does not
contain `"sqlite_sequence"`. -/
def keepStatement (trimmed : List Char) : Bool :=
  !trimmed.isEmpty && !containsSubChars sqliteSequencePat (asciiLowerChars trimmed)

theorem sanitizeStep_drop (acc stmt : List Char)
    (h : keepStatement (trimChars stmt) = false) :
    sanitizeStep acc stmt = acc := by
  unfold sanitizeStep keepStatement at *
  rcases Bool.and_eq_false_iff.mp h with h1 | h1
  · simp only [Bool.not_eq_false'] at h1
    simp [h1]
  · simp only [Bool.not_eq_false'] at h1
    have : ¬(trimChars stmt).isEmpty = true := by
      intro hemp
      rw [List.isEmpty_iff.mp hemp] at h1
      simp [asciiLowerChars, containsSubChars, startsWithChars, sqliteSequencePat] at h1
    simp [this, h1]

theorem sanitizeStep_keep (acc stmt : List Char)
    (h : keepStatement (trimChars stmt) = true) :
    sanitizeStep acc stmt = acc ++ trimChars stmt ++ [';', '\n'] := by
  unfold sanitizeStep
  rcases Bool.and_eq_true_iff.mp h with ⟨h1, h2⟩
  simp only [Bool.not_eq_true'] at h1 h2
  simp [h1, h2]

theorem sanitize_foldl_eq (l : List (List Char)) (acc : List Char) :
    l.foldl sanitizeStep acc
      = acc ++ (((l.map trimChars).filter keepStatement).map (· ++ [';', '\n'])).flatten := by
  induction l generalizing acc with
  | nil => simp
  | cons s rest ih =>
    rw [List.foldl_cons]
    by_cases hk : keepStatement (trimChars s)
    · rw [sanitizeStep_keep acc s hk, ih]
      simp [hk, List.append_assoc]
    · rw [sanitizeStep_drop acc s (Bool.not_eq_true _ ▸ hk), ih]
      simp [hk]

/-- **C8.** `sanitize_import_sql` splits its input on `';'` and keeps, in their
original order and each suffixed by `";\n"`, exactly the trimmed statements that
are non-empty and do not contain `"sqlite_sequence"` ASCII-case-insensitively
(the code lowercases the statement and searches for the lowercase pattern, which
is the same test); every other statement is removed. -/
theorem sanitize_import_sql_spec (sql : String) :
    sanitize_import_sql sql =
      String.mk
        ((((splitOnChar ';' sql.data).map trimChars).filter keepStatement).map
          (· ++ [';', '\n'])).flatten := by
  unfold sanitize_import_sql
  rw [sanitize_foldl_eq]
  rfl

example : sanitize_import_sql "CREATE TABLE t(x); INSERT INTO sqlite_sequence VALUES (1);  ;INSERT INTO t VALUES (2);" =
    "CREATE TABLE t(x);\nINSERT INTO t VALUES (2);\n" := by decide

/-! ### Data model (`provider.rs`)

`settings_config` and the `meta` sidecar are stored in `TEXT` columns as
`serde_json` documents. `serde_json::to_string` followed by `from_str` is the
identity on the documents the code writes, so the model stores the structured
value itself in the column; the `unwrap_or` corruption fallbacks of the Rust
readers are only reachable from externally corrupted files and are not part of
any claim. -/

/-- An opaque JSON document (`serde_json::Value`, floats not exercised). -/
inductive Json where
  | null
  | bool (b : Bool)
  | num (n : Int)
  | str (s : String)
  | arr (elems : List Json)
  | obj (fields : List (String × Json))

/-- Mirror of `CustomEndpoint` (`provider.rs`). -/
structure CustomEndpoint where
  url : String
  added_at : Int
  last_used : Option Int := none

/-- Mirror of `UsageScript` (`provider.rs`). -/
structure UsageScript where
  enabled : Bool
  language : String
  code : String
  timeout : Option Nat := none
  api_key : Option String := none
  base_url : Option String := none
  access_token : Option String := none
  user_id : Option String := none
  auto_query_interval : Option Nat := none

/-- Mirror of `ProviderMeta` (`provider.rs`); the `custom_endpoints` `HashMap`
is modelled as an association list. -/
structure ProviderMeta where
  custom_endpoints : List (String × CustomEndpoint) := []
  usage_script : Option UsageScript := none
  is_partner : Option Bool := none
  partner_promotion_key : Option String := none
  cost_multiplier : Option String := none
  limit_daily_usd : Option String := none
  limit_monthly_usd : Option String := none

/-- Mirror of `Provider` (`provider.rs`). -/
structure Provider where
  id : String
  name : String
  settings_config : Json
  website_url : Option String := none
  category : Option String := none
  created_at : Option Int := none
  sort_index : Option Nat := none
  notes : Option String := none
  meta : Option ProviderMeta := none
  icon : Option String := none
  icon_color : Option String := none
  is_proxy_target : Option Bool := none

/-! ### The `providers` and `provider_endpoints` tables (`schema.rs`) -/

/-- One row of the `providers` table (primary key `(id, app_type)`). -/
structure ProviderRow where
  id : String
  app_type : String
  name : String
  settings_config : Json
  website_url : Option String
  category : Option String
  created_at : Option Int
  sort_index : Option Nat
  notes : Option String
  icon : Option String
  icon_color : Option String
  meta : ProviderMeta
  is_current : Bool
  is_proxy_target : Bool

/-- One row of the `provider_endpoints` table (the surrogate `id` column plays
no role in any claim and is omitted; `added_at` is a nullable column). -/
structure EndpointRow where
  provider_id : String
  app_type : String
  url : String
  added_at : Option Int

/-- The provider-relevant state of the live SQLite database. Row lists are kept
in `rowid` (insertion) order, which is the order SQLite returns for a `SELECT`
without `ORDER BY` on these tables. -/
structure Db where
  providers : List ProviderRow := []
  endpoints : List EndpointRow := []

/-- The `WHERE id = ?1 AND app_type = ?2` test used throughout the DAO. -/
def rowMatches (id app : String) (r : ProviderRow) : Bool :=
  r.id == id && r.app_type == app

/-- The primary key of a provider row. -/
def rowKey (r : ProviderRow) : String × String :=
  (r.id, r.app_type)

/-! ### DAO operations (`dao/providers.rs`) -/

/-- Row-to-`Provider` decoding shared by `get_provider_by_id` (lines 124–168):
`meta` is decoded from the `meta` column only — the endpoint table is *not*
joined — and `is_proxy_target` is wrapped in `Some`. -/
def rowToProvider (r : ProviderRow) : Provider :=
  { id := r.id
    name := r.name
    settings_config := r.settings_config
    website_url := r.website_url
    category := r.category
    created_at := r.created_at
    sort_index := r.sort_index
    notes := r.notes
    meta := some r.meta
    icon := r.icon
    icon_color := r.icon_color
    is_proxy_target := some r.is_proxy_target }

/-- `get_provider_by_id` (lines 124–168): first row matching
`id = ?1 AND app_type = ?2`; absence is `None`, not an error. -/
def get_provider_by_id (id app : String) (db : Db) : Except CoreError (Option Provider) :=
  .ok ((db.providers.find? (rowMatches id app)).map rowToProvider)

/-- `get_current_provider` (lines 104–121): id of the first row with
`app_type = ?1 AND is_current = 1`. -/
def get_current_db (app : String) (db : Db) : Option String :=
  (db.providers.find? (fun r => r.app_type == app && r.is_current)).map (·.id)

/-- `get_current_provider` wrapped in the `Result` the Rust function returns. -/
def get_current_provider (app : String) (db : Db) : Except CoreError (Option String) :=
  .ok (get_current_db app db)

/-- `save_provider` lines 180–182: the caller's meta with the endpoint map taken
out (`std::mem::take`); this is what is written to the `meta` column. -/
def strippedMeta (p : Provider) : ProviderMeta :=
  { p.meta.getD {} with custom_endpoints := [] }

/-- `save_provider` lines 180–182: the endpoint map extracted from the caller's
meta, inserted into `provider_endpoints` only on the insert path. -/
def takenEndpoints (p : Provider) : List (String × CustomEndpoint) :=
  (p.meta.getD {}).custom_endpoints

/-- The row written by `save_provider`'s INSERT branch (lines 233–255):
`is_current` and `is_proxy_target` come from `existing.unwrap_or((false, false))`,
so both are `false`; the caller-supplied `provider.is_proxy_target` is not used. -/
def insertRowOfProvider (app : String) (p : Provider) : ProviderRow :=
  { id := p.id
    app_type := app
    name := p.name
    settings_config := p.settings_config
    website_url := p.website_url
    category := p.category
    created_at := p.created_at
    sort_index := p.sort_index
    notes := p.notes
    icon := p.icon
    icon_color := p.icon_color
    meta := strippedMeta p
    is_current := false
    is_proxy_target := false }

/-- The effect of `save_provider`'s UPDATE branch (lines 198–230) on one
matching row: all mutable fields are taken from the caller, while `is_current`
and `is_proxy_target` are the values read from the existing row `ex`. -/
def updateRow (p : Provider) (ex r : ProviderRow) : ProviderRow :=
  { r with
    name := p.name
    settings_config := p.settings_config
    website_url := p.website_url
    category := p.category
    created_at := p.created_at
    sort_index := p.sort_index
    notes := p.notes
    icon := p.icon
    icon_color := p.icon_color
    meta := strippedMeta p
    is_current := ex.is_current
    is_proxy_target := ex.is_proxy_target }

/-- `save_provider` (lines 174–270), one transaction: look up the existing row
to decide insert vs update; update rewrites the mutable fields in place and
preserves the stored flags; insert appends the new row and the endpoint
sub-records. -/
def save_db (app : String) (p : Provider) (db : Db) : Db :=
  match db.providers.find? (rowMatches p.id app) with
  | some ex =>
    { db with
      providers := db.providers.map fun r =>
        if rowMatches p.id app r then updateRow p ex r else r }
  | none =>
    { db with
      providers := db.providers ++ [insertRowOfProvider app p]
      endpoints := db.endpoints ++ (takenEndpoints p).map fun e =>
        { provider_id := p.id, app_type := app, url := e.1, added_at := some e.2.added_at } }

/-- `save_provider` wrapped in the `Result` the Rust function returns. -/
def save_provider (app : String) (p : Provider) (db : Db) : Except CoreError Db :=
  .ok (save_db app p db)

/-- `delete_provider` (lines 273–281): unconditional row delete; the
`ON DELETE CASCADE` foreign key (with `PRAGMA foreign_keys = ON`) removes the
provider's endpoint rows. -/
def delete_db (app id : String) (db : Db) : Db :=
  { db with
    providers := db.providers.filter fun r => !(rowMatches id app r)
    endpoints := db.endpoints.filter fun e => !(e.provider_id == id && e.app_type == app) }

/-- `delete_provider` wrapped in the `Result` the Rust function returns. -/
def delete_provider (app id : String) (db : Db) : Except CoreError Db :=
  .ok (delete_db app id db)

/-- `set_current_provider` (lines 284–306), one transaction: clear `is_current`
for every row of the namespace, then set it on the rows matching
`id = ?1 AND app_type = ?2`. Net per-row effect inside the namespace:
`is_current := (id matches)`. `UPDATE` statements that touch zero rows are not
engine errors, so the call succeeds whether or not the id exists. -/
def set_current_db (app id : String) (db : Db) : Db :=
  { db with
    providers := db.providers.map fun r =>
      if r.app_type == app then { r with is_current := r.id == id } else r }

/-- `set_current_provider` wrapped in the `Result` the Rust function returns. -/
def set_current_provider (app id : String) (db : Db) : Except CoreError Db :=
  .ok (set_current_db app id db)

/-! ### `get_all_providers` (lines 14–101) and its ordering -/

/-- `created_at` as a sort key: SQLite sorts `NULL` before every integer in
ascending order. -/
def optIntKey : Option Int → WithBot Int
  | none => ⊥
  | some n => (n : WithBot Int)

/-- The `ORDER BY COALESCE(sort_index, 999999), created_at ASC, id ASC` key of
the providers query (line 19). `id` comparison is SQLite's BINARY collation,
which on valid UTF-8 agrees with code-point order. -/
def rowSortKey (r : ProviderRow) : Lex (Nat × Lex (WithBot Int × String)) :=
  toLex (r.sort_index.getD 999999, toLex (optIntKey r.created_at, r.id))

/-- The providers query ordering as a relation on rows. -/
def rowOrder (a b : ProviderRow) : Prop :=
  rowSortKey a ≤ rowSortKey b

instance : DecidableRel rowOrder := fun a b =>
  inferInstanceAs (Decidable (rowSortKey a ≤ rowSortKey b))

instance : IsTotal ProviderRow rowOrder :=
  ⟨fun a b => le_total (rowSortKey a) (rowSortKey b)⟩

instance : IsTrans ProviderRow rowOrder :=
  ⟨fun _ _ _ h1 h2 => le_trans h1 h2⟩

/-- The `ORDER BY added_at ASC, url ASC` key of the endpoints query (line 68). -/
def epSortKey (e : EndpointRow) : Lex (WithBot Int × String) :=
  toLex (optIntKey e.added_at, e.url)

/-- The endpoints query ordering as a relation on rows. -/
def epOrder (a b : EndpointRow) : Prop :=
  epSortKey a ≤ epSortKey b

instance : DecidableRel epOrder := fun a b =>
  inferInstanceAs (Decidable (epSortKey a ≤ epSortKey b))

instance : IsTotal EndpointRow epOrder :=
  ⟨fun a b => le_total (epSortKey a) (epSortKey b)⟩

instance : IsTrans EndpointRow epOrder :=
  ⟨fun _ _ _ h1 h2 => le_trans h1 h2⟩

/-- The endpoint rows of one provider in query order
(`WHERE provider_id = ?1 AND app_type = ?2 ORDER BY added_at ASC, url ASC`). -/
def endpoint_rows (app pid : String) (db : Db) : List EndpointRow :=
  List.insertionSort epOrder
    (db.endpoints.filter fun e => e.provider_id == pid && e.app_type == app)

/-- One entry of the endpoint map built by `get_all_providers` lines 71–91:
keyed by `url`, with `added_at.unwrap_or(0)` and no `last_used`. -/
def endpointEntry (e : EndpointRow) : String × CustomEndpoint :=
  (e.url, { url := e.url, added_at := e.added_at.getD 0, last_used := none })

/-- `get_all_providers` (lines 14–101): the namespace's rows in query order,
each decoded like `get_provider_by_id` and with the meta's endpoint map replaced
by the joined endpoint rows (lines 93–95). The Rust `IndexMap` keyed by `id` and
the per-provider endpoint `HashMap` are modelled as association lists in
insertion order. -/
def get_all_db (app : String) (db : Db) : List (String × Provider) :=
  (List.insertionSort rowOrder (db.providers.filter fun r => r.app_type == app)).map
    fun r =>
      (r.id,
        { rowToProvider r with
          meta := some { r.meta with
            custom_endpoints := (endpoint_rows app r.id db).map endpointEntry } })

/-- `get_all_providers` wrapped in the `Result` the Rust function returns. -/
def get_all_providers (app : String) (db : Db) : Except CoreError (List (String × Provider)) :=
  .ok (get_all_db app db)

/-! ### List helpers for the DAO proofs -/

theorem find?_append_none {α : Type} (p : α → Bool) (l l' : List α)
    (h : l.find? p = none) : (l ++ l').find? p = l'.find? p := by
  induction l with
  | nil => rfl
  | cons a as ih =>
    cases hpa : p a
    · simp only [List.cons_append, List.find?, hpa] at h ⊢
      exact ih h
    · simp [List.find?, hpa] at h

theorem find?_map_pred {α : Type} (p : α → Bool) (f : α → α) (l : List α)
    (h : ∀ r, p (f r) = p r) :
    (l.map f).find? p = (l.find? p).map f := by
  induction l with
  | nil => rfl
  | cons a as ih =>
    simp only [List.map_cons, List.find?, h a]
    cases hpa : p a
    · simpa using ih
    · rfl

theorem rowMatches_iff (id app : String) (r : ProviderRow) :
    rowMatches id app r = true ↔ r.id = id ∧ r.app_type = app := by
  simp [rowMatches]

theorem rowMatches_updateRow (id app : String) (p : Provider) (ex r : ProviderRow) :
    rowMatches id app (updateRow p ex r) = rowMatches id app r := rfl

/-- Under a `Nodup` primary key, at most one row matches any `(id, app_type)`. -/
theorem countP_matches_le_one (l : List ProviderRow)
    (h : (l.map rowKey).Nodup) (id app : String) :
    l.countP (rowMatches id app) ≤ 1 := by
  induction l with
  | nil => simp
  | cons a as ih =>
    simp only [List.map_cons, List.nodup_cons] at h
    rw [List.countP_cons]
    cases hpa : rowMatches id app a
    · simpa using ih h.2
    · have hkey : rowKey a = (id, app) := by
        obtain ⟨h1, h2⟩ := (rowMatches_iff id app a).mp hpa
        simp [rowKey, h1, h2]
      have hz : as.countP (rowMatches id app) = 0 := by
        rw [List.countP_eq_zero]
        intro r hr hm
        obtain ⟨h1, h2⟩ := (rowMatches_iff id app r).mp hm
        apply h.1
        have hkr : rowKey r = rowKey a := by rw [hkey]; simp [rowKey, h1, h2]
        rw [← hkr]
        exact List.mem_map_of_mem rowKey hr
      simp [hz]

/-! ### C9: the insert path of `save_provider` -/

/-- **C9.** When `save_provider` inserts a row whose `(id, namespace)` was not
previously present, the stored row has `is_current = false` and
`is_proxy_target = false` regardless of the caller-supplied
`provider.is_proxy_target`. -/
theorem save_provider_insert_defaults (app : String) (p : Provider) (db : Db)
    (h : db.providers.find? (rowMatches p.id app) = none) :
    save_provider app p db = .ok { db with
        providers := db.providers ++ [insertRowOfProvider app p]
        endpoints := db.endpoints ++ (takenEndpoints p).map fun e =>
          { provider_id := p.id, app_type := app, url := e.1, added_at := some e.2.added_at } }
      ∧ (insertRowOfProvider app p).is_current = false
      ∧ (insertRowOfProvider app p).is_proxy_target = false := by
  refine ⟨?_, rfl, rfl⟩
  simp [save_provider, save_db, h]

/-- A provider whose caller sets `is_proxy_target = Some(true)`. -/
def proxyTrueProvider : Provider :=
  { id := "p1", name := "P", settings_config := .null, is_proxy_target := some true }

theorem save_provider_insert_defaults_witness :
    ((Db.mk [] []).providers.find? (rowMatches "p1" "claude") = none)
    ∧ (save_provider "claude" proxyTrueProvider (Db.mk [] []) = .ok { Db.mk [] [] with
          providers := (Db.mk [] []).providers ++ [insertRowOfProvider "claude" proxyTrueProvider]
          endpoints := (Db.mk [] []).endpoints ++ (takenEndpoints proxyTrueProvider).map fun e =>
            { provider_id := "p1", app_type := "claude", url := e.1, added_at := some e.2.added_at } }
        ∧ (insertRowOfProvider "claude" proxyTrueProvider).is_current = false
        ∧ (insertRowOfProvider "claude" proxyTrueProvider).is_proxy_target = false) :=
  ⟨rfl, by
    have h := save_provider_insert_defaults "claude" proxyTrueProvider (Db.mk [] []) rfl
    simpa using h⟩

/-! ### C10: `set_current_provider` with a missing id -/

/-- **C10.** `set_current_provider(namespace, id)` returns `Ok` even when no
provider with that id exists in the namespace; it then clears `is_current` for
every provider of the namespace, and `get_current_provider` subsequently
returns `None`. -/
theorem set_current_provider_missing_id (app id : String) (db : Db)
    (h : ∀ r ∈ db.providers, rowMatches id app r = false) :
    set_current_provider app id db = .ok (set_current_db app id db)
      ∧ (∀ r ∈ (set_current_db app id db).providers, r.app_type = app → r.is_current = false)
      ∧ get_current_provider app (set_current_db app id db) = .ok none := by
  have hclear : ∀ r ∈ (set_current_db app id db).providers,
      r.app_type = app → r.is_current = false := by
    intro r hr happ
    simp only [set_current_db, List.mem_map] at hr
    obtain ⟨r0, hr0, rfl⟩ := hr
    by_cases hb : r0.app_type == app
    · have hm := h r0 hr0
      simp only [rowMatches, hb, Bool.and_true] at hm
      simp [hb, hm]
    · simp only [hb, if_neg] at happ ⊢
      exact absurd (by simpa using happ) (by simpa using hb)
  refine ⟨rfl, hclear, ?_⟩
  have hnone : (set_current_db app id db).providers.find?
      (fun r => r.app_type == app && r.is_current) = none := by
    rw [List.find?_eq_none]
    intro r hr hp
    simp only [Bool.and_eq_true, beq_iff_eq] at hp
    have := hclear r hr hp.1
    rw [this] at hp
    exact Bool.false_ne_true hp.2
  simp [get_current_provider, get_current_db, hnone]

/-- A one-row database used to witness C10. -/
def c10Row : ProviderRow :=
  { id := "p1", app_type := "claude", name := "P", settings_config := .null
    website_url := none, category := none, created_at := none, sort_index := none
    notes := none, icon := none, icon_color := none, meta := {}
    is_current := true, is_proxy_target := false }

theorem set_current_provider_missing_id_witness :
    (∀ r ∈ (Db.mk [c10Row] []).providers, rowMatches "absent" "claude" r = false)
    ∧ (set_current_provider "claude" "absent" (Db.mk [c10Row] [])
          = .ok (set_current_db "claude" "absent" (Db.mk [c10Row] []))
        ∧ (∀ r ∈ (set_current_db "claude" "absent" (Db.mk [c10Row] [])).providers,
            r.app_type = "claude" → r.is_current = false)
        ∧ get_current_provider "claude" (set_current_db "claude" "absent" (Db.mk [c10Row] []))
            = .ok none) :=
  ⟨by decide, set_current_provider_missing_id "claude" "absent" (Db.mk [c10Row] []) (by decide)⟩

/-! ### C4: `get_provider_by_id` after `save_provider` -/

/-- What `get_provider_by_id(p.id, n)` actually returns right after
`save_provider(n, p)`: every field of `p`, except that `meta` comes back as
`Some` of the caller's meta with the endpoint map stripped (the map is moved to
the endpoint table on insert and never read back by this query), and
`is_proxy_target` is `Some` of the *stored* flag — the pre-existing row's flag
on update, and `false` on insert. -/
def expectedAfterSave (app : String) (p : Provider) (db : Db) : Provider :=
  { p with
    meta := some (strippedMeta p)
    is_proxy_target := some (match db.providers.find? (rowMatches p.id app) with
      | some ex => ex.is_proxy_target
      | none => false) }

/-- **C4 (amended).** After `save_provider(n, p)`, `get_provider_by_id(p.id, n)`
returns `p` with `meta` replaced by `Some` of the endpoint-stripped meta and
`is_proxy_target` replaced by `Some` of the stored flag (prior row's flag on
update, `false` on insert); `is_current` is not a `Provider` field and is not
reported by this query. -/
theorem get_after_save (app : String) (p : Provider) (db : Db) :
    save_provider app p db = .ok (save_db app p db)
      ∧ get_provider_by_id p.id app (save_db app p db)
          = .ok (some (expectedAfterSave app p db)) := by
  refine ⟨rfl, ?_⟩
  cases hfind : db.providers.find? (rowMatches p.id app) with
  | none =>
    simp only [get_provider_by_id, save_db, hfind]
    rw [find?_append_none _ _ _ hfind]
    have hrow : rowMatches p.id app (insertRowOfProvider app p) = true := by
      simp [rowMatches, insertRowOfProvider]
    rw [show [insertRowOfProvider app p].find? (rowMatches p.id app)
          = some (insertRowOfProvider app p) from by simp [List.find?, hrow]]
    simp [expectedAfterSave, hfind, rowToProvider, insertRowOfProvider]
  | some ex =>
    have hpres : ∀ r, rowMatches p.id app
        (if rowMatches p.id app r then updateRow p ex r else r) = rowMatches p.id app r := by
      intro r
      by_cases hb : rowMatches p.id app r
      · simp [hb, rowMatches_updateRow]
      · simp [hb]
    have hex := List.find?_some hfind
    obtain ⟨hid, _⟩ := (rowMatches_iff p.id app ex).mp hex
    simp only [get_provider_by_id, save_db, hfind]
    rw [find?_map_pred _ _ _ hpres, hfind]
    simp [hex, expectedAfterSave, hfind, rowToProvider, updateRow, hid]

/-- **C4 (counterexample).** On a fresh insert the claim's exception clause does
not apply, so the claim asserts `get` returns `p` itself; but inserting
`proxyTrueProvider` (whose `is_proxy_target` is `Some(true)`) stores `false`,
and `get` returns a provider with `is_proxy_target = Some(false)` ≠ `p`. -/
theorem get_after_save_claim_false :
    ¬ (get_provider_by_id "p1" "claude" (save_db "claude" proxyTrueProvider (Db.mk [] []))
        = .ok (some proxyTrueProvider)) := by
  intro h
  have h2 := congrArg (fun x =>
    match x with
    | Except.ok (some q) => q.is_proxy_target
    | _ => (none : Option Bool)) h
  exact absurd h2 (by decide)

/-! ### C7: the order of `get_all_providers` -/

/-- The ordering asserted by the claim, stated from the spec's words:
`sort_index` ascending with null/missing sorting *last*, then `created_at`
ascending, then `id` ascending. (Spec-side definition, used to refute the
claim; the code's actual key is `rowSortKey`.) -/
def claimSortIndexKey : Option Nat → Lex (Nat × Nat)
  | some i => toLex (0, i)
  | none => toLex (1, 0)

/-- The claim's full ordering key on one output entry of `get_all_providers`. -/
def claimKey (x : String × Provider) : Lex (Lex (Nat × Nat) × Lex (WithBot Int × String)) :=
  toLex (claimSortIndexKey x.2.sort_index, toLex (optIntKey x.2.created_at, x.1))

/-- Whether adjacent output entries are ordered by the claim's key. -/
def claimOrderedPairs : List (String × Provider) → Bool
  | [] => true
  | [_] => true
  | a :: b :: rest => decide (claimKey a ≤ claimKey b) && claimOrderedPairs (b :: rest)

/-- Row with an explicit `sort_index` of 1000000 (above the `COALESCE`
sentinel 999999). -/
def c7RowA : ProviderRow :=
  { id := "a", app_type := "claude", name := "A", settings_config := .null
    website_url := none, category := none, created_at := some 0
    sort_index := some 1000000, notes := none, icon := none, icon_color := none
    meta := {}, is_current := false, is_proxy_target := false }

/-- Row with no `sort_index`: the claim says it sorts last, but the code's
`COALESCE(sort_index, 999999)` makes it sort as 999999, before `c7RowA`. -/
def c7RowB : ProviderRow :=
  { id := "b", app_type := "claude", name := "B", settings_config := .null
    website_url := none, category := none, created_at := some 1
    sort_index := none, notes := none, icon := none, icon_color := none
    meta := {}, is_current := false, is_proxy_target := false }

/-- **C7 (counterexample).** With one provider at `sort_index = 1000000` and one
with no `sort_index`, `get_all_providers` returns the missing-`sort_index`
provider first (`COALESCE` maps it to 999999 < 1000000), so the output is not
ordered by the claim's nulls-last key. -/
theorem get_all_providers_claim_false :
    get_all_providers "claude" (Db.mk [c7RowA, c7RowB] [])
        = .ok (get_all_db "claude" (Db.mk [c7RowA, c7RowB] []))
      ∧ (get_all_db "claude" (Db.mk [c7RowA, c7RowB] [])).map Prod.fst = ["b", "a"]
      ∧ claimOrderedPairs (get_all_db "claude" (Db.mk [c7RowA, c7RowB] [])) = false := by
  refine ⟨rfl, by decide, by decide⟩

/-- The ordering key the code actually sorts by, read off the output entry:
`COALESCE(sort_index, 999999)` ascending, then `created_at` ascending with
missing values first, then `id` ascending. -/
def outSortKey (x : String × Provider) : Lex (Nat × Lex (WithBot Int × String)) :=
  toLex (x.2.sort_index.getD 999999, toLex (optIntKey x.2.created_at, x.1))

/-- **C7 (amended).** `get_all_providers(namespace)` returns exactly the
namespace's providers, ordered by `COALESCE(sort_index, 999999)` ascending
(a missing `sort_index` sorts as the sentinel 999999, not strictly last), then
`created_at` ascending (missing first), then `id` ascending; each provider's
endpoint rows are fetched ordered by `added_at` (missing first) then `url`, and
its endpoint map carries them in that order. -/
theorem get_all_providers_order (app : String) (db : Db) :
    List.Pairwise (fun x y => outSortKey x ≤ outSortKey y) (get_all_db app db)
      ∧ ((get_all_db app db).map Prod.fst).Perm
          ((db.providers.filter fun r => r.app_type == app).map (·.id))
      ∧ ∀ x ∈ get_all_db app db,
          x.2.meta.map (·.custom_endpoints)
              = some ((endpoint_rows app x.1 db).map endpointEntry)
            ∧ List.Pairwise epOrder (endpoint_rows app x.1 db) := by
  refine ⟨?_, ?_, ?_⟩
  · have hs := List.sorted_insertionSort rowOrder
      (db.providers.filter fun r => r.app_type == app)
    unfold get_all_db
    rw [List.pairwise_map]
    exact hs.imp (fun {a b} h => h)
  · unfold get_all_db
    rw [List.map_map]
    have hperm := List.perm_insertionSort rowOrder
      (db.providers.filter fun r => r.app_type == app)
    exact hperm.map _
  · intro x hx
    unfold get_all_db at hx
    rw [List.mem_map] at hx
    obtain ⟨r, _, rfl⟩ := hx
    exact ⟨rfl, List.sorted_insertionSort epOrder _⟩

/-! ### C2: at most one current provider per namespace -/

/-- A call against the provider DAO, as exercised by the claim. -/
inductive DaoOp where
  | save (app : String) (p : Provider)
  | del (app id : String)
  | setCur (app id : String)

/-- Run one DAO call. Every one of these three calls succeeds in the model
(`save`/`delete`/`set_current` contain no failing path over an intact store);
a transaction that did fail would roll back and leave the store unchanged. -/
def applyOp (db : Db) : DaoOp → Db
  | .save app p => save_db app p db
  | .del app id => delete_db app id db
  | .setCur app id => set_current_db app id db

/-- Run a sequence of DAO calls against the empty store. -/
def applyOps (ops : List DaoOp) : Db :=
  ops.foldl applyOp {}

/-- Number of rows of a namespace with `is_current = true`. -/
def currentCount (app : String) (db : Db) : Nat :=
  db.providers.countP fun r => r.app_type == app && r.is_current

/-- The primary key `(id, app_type)` is unique among provider rows. -/
def NodupKeys (db : Db) : Prop :=
  (db.providers.map rowKey).Nodup

/-- Both store invariants maintained by the DAO. -/
def DbInv (db : Db) : Prop :=
  NodupKeys db ∧ ∀ app, currentCount app db ≤ 1

theorem nodupKeys_save (app : String) (p : Provider) (db : Db)
    (h : NodupKeys db) : NodupKeys (save_db app p db) := by
  unfold NodupKeys at *
  cases hfind : db.providers.find? (rowMatches p.id app) with
  | some ex =>
    simp only [save_db, hfind]
    rw [List.map_map,
      List.map_congr_left (g := rowKey) (fun r _ => by
        by_cases hb : rowMatches p.id app r <;> simp [Function.comp, hb, updateRow, rowKey])]
    exact h
  | none =>
    simp only [save_db, hfind, List.map_append, List.map_cons, List.map_nil]
    rw [List.nodup_append]
    refine ⟨h, List.nodup_singleton _, ?_⟩
    intro k hk hk'
    simp only [List.mem_singleton] at hk'
    rw [List.mem_map] at hk
    obtain ⟨r, hr, rfl⟩ := hk
    rw [List.find?_eq_none] at hfind
    apply hfind r hr
    rw [rowMatches_iff]
    have : r.id = p.id ∧ r.app_type = app := by
      have := hk'
      simp [rowKey, insertRowOfProvider] at this
      exact this
    exact this

theorem nodupKeys_delete (app id : String) (db : Db)
    (h : NodupKeys db) : NodupKeys (delete_db app id db) := by
  unfold NodupKeys at *
  exact h.sublist ((List.filter_sublist _).map rowKey)

theorem nodupKeys_setCur (app id : String) (db : Db)
    (h : NodupKeys db) : NodupKeys (set_current_db app id db) := by
  unfold NodupKeys at *
  simp only [set_current_db]
  rw [List.map_map,
    List.map_congr_left (g := rowKey) (fun r _ => by
      by_cases hb : r.app_type == app <;> simp [Function.comp, hb, rowKey])]
  exact h

theorem currentCount_save (app' app : String) (p : Provider) (db : Db)
    (h : NodupKeys db) :
    currentCount app' (save_db app p db) = currentCount app' db := by
  unfold currentCount
  cases hfind : db.providers.find? (rowMatches p.id app) with
  | some ex =>
    have hexmem := List.mem_of_find?_eq_some hfind
    have hexkey := List.find?_some hfind
    simp only [save_db, hfind]
    rw [List.countP_map]
    apply List.countP_congr
    intro r hr
    by_cases hb : rowMatches p.id app r
    · have : r = ex := by
        apply List.inj_on_of_nodup_map h hr hexmem
        obtain ⟨h1, h2⟩ := (rowMatches_iff p.id app r).mp hb
        obtain ⟨h3, h4⟩ := (rowMatches_iff p.id app ex).mp hexkey
        simp [rowKey, h1, h2, h3, h4]
      subst this
      simp [Function.comp, hb, updateRow]
    · simp [Function.comp, hb]
  | none =>
    simp only [save_db, hfind]
    rw [List.countP_append]
    simp [insertRowOfProvider, List.countP_cons]

theorem currentCount_delete (app' app id : String) (db : Db) :
    currentCount app' (delete_db app id db) ≤ currentCount app' db :=
  List.Sublist.countP_le _ ((List.filter_sublist _))

theorem currentCount_setCur (app' app id : String) (db : Db)
    (h : NodupKeys db) (hprev : currentCount app' db ≤ 1) :
    currentCount app' (set_current_db app id db) ≤ 1 := by
  unfold currentCount at *
  simp only [set_current_db]
  rw [List.countP_map]
  by_cases happ : app' = app
  · subst happ
    rw [List.countP_congr (q := rowMatches id app') (fun r _ => by
      by_cases hb : r.app_type == app' <;>
        simp [Function.comp, hb, rowMatches, Bool.and_comm])]
    exact countP_matches_le_one db.providers h id app'
  · rw [List.countP_congr (q := fun r => r.app_type == app' && r.is_current) (fun r _ => by
      by_cases hb : r.app_type == app
      · have hne : (r.app_type == app') = false := by
          rw [beq_eq_false_iff_ne]
          rw [beq_iff_eq] at hb
          rw [hb]
          exact fun hcontra => happ hcontra.symm
        simp [Function.comp, hb, hne]
      · simp [Function.comp, hb])]
    exact hprev

theorem dbInv_applyOp (db : Db) (op : DaoOp) (h : DbInv db) : DbInv (applyOp db op) := by
  obtain ⟨hn, hc⟩ := h
  cases op with
  | save app p =>
    exact ⟨nodupKeys_save app p db hn, fun a => by
      rw [show currentCount a (applyOp db (.save app p)) = currentCount a (save_db app p db) from rfl,
        currentCount_save a app p db hn]
      exact hc a⟩
  | del app id =>
    exact ⟨nodupKeys_delete app id db hn, fun a =>
      le_trans (currentCount_delete a app id db) (hc a)⟩
  | setCur app id =>
    exact ⟨nodupKeys_setCur app id db hn, fun a =>
      currentCount_setCur a app id db hn (hc a)⟩

theorem dbInv_foldl (ops : List DaoOp) (db : Db) (h : DbInv db) :
    DbInv (ops.foldl applyOp db) := by
  induction ops generalizing db with
  | nil => exact h
  | cons op rest ih => exact ih _ (dbInv_applyOp db op h)

/-- **C2.** Starting from the empty store, after any sequence of
`save_provider`, `delete_provider` and `set_current_provider` calls, every
namespace has at most one provider row with `is_current = true`. -/
theorem at_most_one_current (ops : List DaoOp) (app : String) :
    currentCount app (applyOps ops) ≤ 1 :=
  (dbInv_foldl ops {} ⟨List.nodup_nil, fun _ => by simp [currentCount]⟩).2 app

/-! ### Schema manager (`schema.rs`)

The connection state relevant to table creation and migration: the stored
`user_version` and, for each table, its column names in order. -/

/-- `SCHEMA_VERSION` (`mod.rs` line 29). -/
def SCHEMA_VERSION : Int := 2

/-- Schema-level state of one SQLite connection. -/
structure SchemaConn where
  user_version : Int
  tables : List (String × List String)
  deriving DecidableEq, Repr

/-- `validate_identifier` (`schema.rs` lines 185–195): non-empty, ASCII
alphanumerics and underscore only. -/
def validate_identifier (s kind : String) : Except CoreError Unit :=
  if s.isEmpty then
    .error (.database (kind ++ " cannot be empty"))
  else if s.data.all (fun c => c.isAlphanum || c = '_') then
    .ok ()
  else
    .error (.database ("Invalid " ++ kind ++ ": " ++ s ++
      ", only letters, numbers and underscores allowed"))

/-- `str::eq_ignore_ascii_case`. -/
def eqIgnoreAsciiCase (a b : String) : Bool :=
  asciiLowerChars a.data == asciiLowerChars b.data

/-- `table_exists` (`schema.rs` lines 197–215): scan the schema's table names,
comparing case-insensitively, after validating the identifier. -/
def table_exists (conn : SchemaConn) (table : String) : Except CoreError Bool := do
  let _ ← validate_identifier table "table name"
  .ok (conn.tables.any fun t => eqIgnoreAsciiCase t.1 table)

/-- `has_column` (`schema.rs` lines 217–241): `PRAGMA table_info` column names,
compared case-insensitively, after validating both identifiers. SQLite resolves
the table name case-insensitively; a missing table yields no columns. -/
def has_column (conn : SchemaConn) (table column : String) : Except CoreError Bool := do
  let _ ← validate_identifier table "table name"
  let _ ← validate_identifier column "column name"
  match conn.tables.find? (fun t => eqIgnoreAsciiCase t.1 table) with
  | none => .ok false
  | some t => .ok (t.2.any fun c => eqIgnoreAsciiCase c column)

/-- Append a column to a table (the effect of a successful `ALTER TABLE … ADD
COLUMN`). -/
def addCol (conn : SchemaConn) (table column : String) : SchemaConn :=
  { conn with
    tables := conn.tables.map fun t =>
      if eqIgnoreAsciiCase t.1 table then (t.1, t.2 ++ [column]) else t }

/-- `add_column_if_missing` (`schema.rs` lines 243–266): validate identifiers,
fail if the table is absent, do nothing if the column is already there,
otherwise run the `ALTER TABLE`. Returns whether a column was added. -/
def add_column_if_missing (conn : SchemaConn) (table column : String) :
    Except CoreError (Bool × SchemaConn) := do
  let _ ← validate_identifier table "table name"
  let _ ← validate_identifier column "column name"
  let tex ← table_exists conn table
  if !tex then
    .error (.database ("Table " ++ table ++ " does not exist, cannot add column " ++ column))
  else do
    let hc ← has_column conn table column
    if hc then
      .ok (false, conn)
    else
      .ok (true, addCol conn table column)

/-- Column list of `CREATE TABLE providers` (`schema.rs` lines 19–38). -/
def providersColumns : List String :=
  ["id", "app_type", "name", "settings_config", "website_url", "category",
   "created_at", "sort_index", "notes", "icon", "icon_color", "meta",
   "is_current", "is_proxy_target"]

/-- Column list of `CREATE TABLE provider_endpoints` (`schema.rs` lines 48–58). -/
def endpointsColumns : List String :=
  ["id", "provider_id", "app_type", "url", "added_at"]

/-- Column list of `CREATE TABLE settings` (`schema.rs` lines 62–69). -/
def settingsColumns : List String :=
  ["key", "value"]

/-- `CREATE TABLE IF NOT EXISTS`: a no-op when a table of that name (SQLite
names are case-insensitive) already exists. -/
def createTableIfNotExists (conn : SchemaConn) (name : String) (cols : List String) : SchemaConn :=
  if conn.tables.any (fun t => eqIgnoreAsciiCase t.1 name) then conn
  else { conn with tables := conn.tables ++ [(name, cols)] }

/-- The `let _ = conn.execute("ALTER TABLE providers ADD COLUMN …")` at
`schema.rs` lines 42–45: the statement's error (missing table or duplicate
column) is discarded, so the net effect is to add the column exactly when the
table exists and lacks it. -/
def tryAddColumn (conn : SchemaConn) (table column : String) : SchemaConn :=
  match conn.tables.find? (fun t => eqIgnoreAsciiCase t.1 table) with
  | none => conn
  | some t =>
    if t.2.any (fun c => eqIgnoreAsciiCase c column) then conn
    else addCol conn table column

/-- `create_tables_on_conn` (`schema.rs` lines 17–72). Its only failure mode is
an engine failure, so the model is total. -/
def create_tables_on_conn (conn : SchemaConn) : SchemaConn :=
  let c1 := createTableIfNotExists conn "providers" providersColumns
  let c2 := tryAddColumn c1 "providers" "is_proxy_target"
  let c3 := createTableIfNotExists c2 "provider_endpoints" endpointsColumns
  createTableIfNotExists c3 "settings" settingsColumns

/-- `set_user_version` (`schema.rs` lines 175–183). -/
def set_user_version (conn : SchemaConn) (version : Int) : Except CoreError SchemaConn :=
  if version < 0 then
    .error (.database "user_version cannot be negative")
  else
    .ok { conn with user_version := version }

/-- `migrate_v0_to_v1` (`schema.rs` lines 134–154). -/
def migrate_v0_to_v1 (conn : SchemaConn) : Except CoreError SchemaConn := do
  let (_, c) ← add_column_if_missing conn "providers" "category"
  let (_, c) ← add_column_if_missing c "providers" "created_at"
  let (_, c) ← add_column_if_missing c "providers" "sort_index"
  let (_, c) ← add_column_if_missing c "providers" "notes"
  let (_, c) ← add_column_if_missing c "providers" "icon"
  let (_, c) ← add_column_if_missing c "providers" "icon_color"
  let (_, c) ← add_column_if_missing c "providers" "meta"
  let (_, c) ← add_column_if_missing c "providers" "is_current"
  let (_, c) ← add_column_if_missing c "provider_endpoints" "added_at"
  .ok c

/-- `migrate_v1_to_v2` (`schema.rs` lines 157–166). -/
def migrate_v1_to_v2 (conn : SchemaConn) : Except CoreError SchemaConn := do
  let (_, c) ← add_column_if_missing conn "providers" "is_proxy_target"
  .ok c

/-- One iteration of the `while version < SCHEMA_VERSION` loop of
`apply_schema_migrations_on_conn` (`schema.rs` lines 96–113): dispatch on the
stored version, run that step's migration, then write the next version; an
unknown version is an error. -/
def ladder_step (conn : SchemaConn) : Except CoreError SchemaConn :=
  if conn.user_version = 0 then
    match migrate_v0_to_v1 conn with
    | .error e => .error e
    | .ok c1 => set_user_version c1 1
  else if conn.user_version = 1 then
    match migrate_v1_to_v2 conn with
    | .error e => .error e
    | .ok c1 => set_user_version c1 2
  else
    .error (.database ("Unknown database version " ++ toString conn.user_version ++
      ", cannot migrate to " ++ toString SCHEMA_VERSION))

/-- The `while version < SCHEMA_VERSION` loop, with an explicit iteration
budget. Every successful `ladder_step` raises the version by exactly one, so a
budget of `(SCHEMA_VERSION - version).toNat` is exactly the number of
iterations the loop performs; `ladder_loop_eq` below shows the budgeted loop
satisfies the while loop's defining equation. -/
def ladder_loop : Nat → SchemaConn → Except CoreError SchemaConn
  | 0, conn => .ok conn
  | fuel + 1, conn =>
    if conn.user_version < SCHEMA_VERSION then
      match ladder_step conn with
      | .error e => .error e
      | .ok c => ladder_loop fuel c
    else
      .ok conn

/-- The migration ladder of `apply_schema_migrations_on_conn`. -/
def run_ladder (conn : SchemaConn) : Except CoreError SchemaConn :=
  ladder_loop (SCHEMA_VERSION - conn.user_version).toNat conn

/-- A successful `ladder_step` moves the stored version from 0 to 1 or from
1 to 2; any other stored version is rejected. -/
theorem ladder_step_version (conn c : SchemaConn) (h : ladder_step conn = .ok c) :
    (conn.user_version = 0 ∨ conn.user_version = 1)
      ∧ c.user_version = conn.user_version + 1 := by
  unfold ladder_step at h
  by_cases h0 : conn.user_version = 0
  · refine ⟨Or.inl h0, ?_⟩
    simp only [h0, if_pos rfl] at h ⊢
    cases hm : migrate_v0_to_v1 conn with
    | error e => rw [hm] at h; cases h
    | ok c1 =>
      rw [hm] at h
      simp [set_user_version] at h
      rw [← h]
      rfl
  · by_cases h1 : conn.user_version = 1
    · refine ⟨Or.inr h1, ?_⟩
      simp only [h0, if_neg, h1, if_pos rfl, if_false] at h ⊢
      cases hm : migrate_v1_to_v2 conn with
      | error e => simp [hm] at h
      | ok c1 =>
        simp only [hm] at h
        simp [set_user_version] at h
        rw [← h]
        rfl
    · simp [h0, h1] at h

/-- The budgeted loop satisfies the defining equation of the Rust `while`
loop, so `run_ladder` is the loop itself: the budget never runs out while the
guard still holds. -/
theorem run_ladder_eq (conn : SchemaConn) :
    run_ladder conn =
      if conn.user_version < SCHEMA_VERSION then
        match ladder_step conn with
        | .error e => .error e
        | .ok c => run_ladder c
      else
        .ok conn := by
  unfold run_ladder
  by_cases hlt : conn.user_version < SCHEMA_VERSION
  · have hfuel : ∃ n, (SCHEMA_VERSION - conn.user_version).toNat = n + 1 := by
      refine ⟨(SCHEMA_VERSION - conn.user_version).toNat - 1, ?_⟩
      omega
    obtain ⟨n, hn⟩ := hfuel
    rw [hn]
    simp only [ladder_loop, if_pos hlt]
    cases hs : ladder_step conn with
    | error e => rfl
    | ok c =>
      obtain ⟨hor, hsucc⟩ := ladder_step_version conn c hs
      have : n = (SCHEMA_VERSION - c.user_version).toNat := by
        rw [hsucc]
        unfold SCHEMA_VERSION at *
        omega
      rw [this]
  · have : (SCHEMA_VERSION - conn.user_version).toNat = 0 := by
      unfold SCHEMA_VERSION at *
      omega
    rw [this]
    simp [ladder_loop, hlt]

/-- `apply_schema_migrations_on_conn` (`schema.rs` lines 81–131), with the
savepoint made explicit: the function returns its `Result` together with the
post-state of the connection; on any error the savepoint is rolled back, so the
post-state is the original connection (version and tables unchanged). -/
def apply_schema_migrations_on_conn (conn : SchemaConn) :
    Except CoreError Unit × SchemaConn :=
  if conn.user_version > SCHEMA_VERSION then
    (.error (.database ("Database version (" ++ toString conn.user_version ++
      ") is newer than supported (" ++ toString SCHEMA_VERSION ++
      "). Please upgrade the application.")), conn)
  else
    match run_ladder conn with
    | .ok c => (.ok (), c)
    | .error e => (.error e, conn)

/-- The schema pipeline run by `Database::init` (`mod.rs` lines 76–77) and by
the import path (`backup.rs` lines 58–59): `create_tables_on_conn` followed by
`apply_schema_migrations_on_conn`. -/
def ensure_schema (conn : SchemaConn) : Except CoreError Unit × SchemaConn :=
  apply_schema_migrations_on_conn (create_tables_on_conn conn)

/-! ### C5: a store newer than the code -/

/-- **C5.** When the stored version exceeds `SCHEMA_VERSION`, the migration
fails fast with the "newer than supported" error before any ladder step runs,
and the connection state — in particular the stored version — is unchanged. -/
theorem migrations_newer_version_fail (conn : SchemaConn)
    (h : conn.user_version > SCHEMA_VERSION) :
    apply_schema_migrations_on_conn conn =
      (.error (.database ("Database version (" ++ toString conn.user_version ++
        ") is newer than supported (" ++ toString SCHEMA_VERSION ++
        "). Please upgrade the application.")), conn) := by
  simp [apply_schema_migrations_on_conn, h]

/-- A fully-migrated store stamped with a future version 3. -/
def futureConn : SchemaConn :=
  { user_version := 3
    tables := [("providers", providersColumns),
               ("provider_endpoints", endpointsColumns),
               ("settings", settingsColumns)] }

theorem migrations_newer_version_fail_witness :
    futureConn.user_version > SCHEMA_VERSION
    ∧ apply_schema_migrations_on_conn futureConn =
        (.error (.database ("Database version (" ++ toString futureConn.user_version ++
          ") is newer than supported (" ++ toString SCHEMA_VERSION ++
          "). Please upgrade the application.")), futureConn) :=
  ⟨by decide, migrations_newer_version_fail futureConn (by decide)⟩

/-! ### C6: migration from empty, and idempotence -/

/-- The entirely empty store: no tables, `user_version = 0`. -/
def emptySchemaConn : SchemaConn :=
  { user_version := 0, tables := [] }

/-- **C6.** Running the schema pipeline (table creation + migration ladder, the
sequence `Database::init` performs) on an empty version-0 store succeeds and
brings it to `SCHEMA_VERSION` with every expected column of all three tables
present; re-running the pipeline on the result is a no-op: same state, no
error. -/
theorem ensure_schema_from_empty :
    (ensure_schema emptySchemaConn).1 = .ok ()
    ∧ (ensure_schema emptySchemaConn).2.user_version = SCHEMA_VERSION
    ∧ (∀ c ∈ providersColumns,
        has_column (ensure_schema emptySchemaConn).2 "providers" c = .ok true)
    ∧ (∀ c ∈ endpointsColumns,
        has_column (ensure_schema emptySchemaConn).2 "provider_endpoints" c = .ok true)
    ∧ (∀ c ∈ settingsColumns,
        has_column (ensure_schema emptySchemaConn).2 "settings" c = .ok true)
    ∧ ensure_schema (ensure_schema emptySchemaConn).2
        = (.ok (), (ensure_schema emptySchemaConn).2) := by
  decide

/-! ### Backup/restore engine (`backup.rs`): the import pipeline

The scratch (temp-file) connection is modelled at schema level (`SchemaConn`).
Executing the sanitized SQL batch against the brand-new scratch database is
done by SQLite, which is external to this repository, so it is a parameter
`execute_batch` of the model; everything after it (`create_tables_on_conn`,
`apply_schema_migrations_on_conn`, `validate_basic_state`, the page-level copy
onto the live connection) is the repository's own code. -/

/-- `DB_BACKUP_RETAIN` (`backup.rs` line 17). -/
def DB_BACKUP_RETAIN : Nat := 5

/-- The file-system state the import pipeline touches: the live database's
contents, whether the live database file exists on disk, and the ids of the
files in the `backups` directory ordered oldest-to-newest by modification
time. -/
structure BackupWorld where
  live : SchemaConn
  live_file_exists : Bool
  backups : List String
  deriving DecidableEq, Repr

/-- `cleanup_db_backups` (`backup.rs` lines 151–180): if more than
`DB_BACKUP_RETAIN` backup files exist, delete the oldest
`len - DB_BACKUP_RETAIN` of them (sorted by modification time). -/
def cleanup_db_backups (l : List String) : List String :=
  if l.length ≤ DB_BACKUP_RETAIN then l
  else l.drop (l.length - DB_BACKUP_RETAIN)

/-- `backup_database_file` (`backup.rs` lines 119–148): if the live database
file does not exist, do nothing and return `None`; otherwise write a page-level
copy named `db_backup_<timestamp>` into the backups directory (newest file) and
prune the directory. The caller-visible id is the file stem. -/
def backup_database_file (ts : String) (w : BackupWorld) : Option String × BackupWorld :=
  if w.live_file_exists then
    let backup_id := "db_backup_" ++ ts
    (some backup_id, { w with backups := cleanup_db_backups (w.backups ++ [backup_id]) })
  else
    (none, w)

/-- `validate_basic_state` (`backup.rs` lines 183–193): an empty provider table
only prints a warning; the function always returns `Ok`. -/
def validate_basic_state (_conn : SchemaConn) : Except CoreError Unit :=
  .ok ()

/-- `import_sql` (`backup.rs` lines 33–77). `source` is the content of the
source file (`None` when the file does not exist); `ts` is the wall-clock
timestamp used for the backup file name; `execute_batch` is SQLite's execution
of the sanitized batch against the fresh scratch database. Returns the Rust
function's `Result<String>` (the pre-restore backup id, empty if none was
taken) together with the post-state of the world. -/
def import_sql (execute_batch : String → Except String SchemaConn)
    (source : Option String) (ts : String) (w : BackupWorld) :
    Except CoreError String × BackupWorld :=
  match source with
  | none => (.error (.config "SQL file not found"), w)
  | some sql_raw =>
    let sql_content := sanitize_import_sql sql_raw
    let (backup_path, w1) := backup_database_file ts w
    match execute_batch sql_content with
    | .error e => (.error (.database ("SQL import failed: " ++ e)), w1)
    | .ok temp0 =>
      let temp1 := create_tables_on_conn temp0
      match apply_schema_migrations_on_conn temp1 with
      | (.error e, _) => (.error e, w1)
      | (.ok (), temp2) =>
        match validate_basic_state temp2 with
        | .error e => (.error e, w1)
        | .ok () =>
          (.ok (backup_path.getD ""), { w1 with live := temp2 })

/-- The newest backup survives pruning. -/
theorem mem_cleanup_append (l : List String) (a : String) :
    a ∈ cleanup_db_backups (l ++ [a]) := by
  unfold cleanup_db_backups
  by_cases h : (l ++ [a]).length ≤ DB_BACKUP_RETAIN
  · rw [if_pos h]
    simp
  · rw [if_neg h]
    have hlen : (l ++ [a]).length = l.length + 1 := by simp
    have hle : (l ++ [a]).length - DB_BACKUP_RETAIN ≤ l.length := by
      rw [hlen]
      unfold DB_BACKUP_RETAIN
      omega
    rw [List.drop_append_of_le_length hle]
    simp

/-- **C1.** When the sanitized SQL batch fails to execute (a syntactically
invalid source file), `import_sql` returns the "SQL import failed" error, the
live store is untouched (the only step that writes to it comes after the batch
succeeds), and a fresh pre-restore backup file exists afterwards if and only if
the live store file existed before the attempt. -/
theorem import_sql_invalid_batch
    (execute_batch : String → Except String SchemaConn)
    (sql_raw ts : String) (w : BackupWorld) (e : String)
    (hexec : execute_batch (sanitize_import_sql sql_raw) = .error e)
    (hfresh : ("db_backup_" ++ ts) ∉ w.backups) :
    import_sql execute_batch (some sql_raw) ts w
      = (.error (.database ("SQL import failed: " ++ e)),
         { w with backups := if w.live_file_exists
             then cleanup_db_backups (w.backups ++ ["db_backup_" ++ ts])
             else w.backups })
    ∧ (import_sql execute_batch (some sql_raw) ts w).2.live = w.live
    ∧ ((("db_backup_" ++ ts) ∈ (import_sql execute_batch (some sql_raw) ts w).2.backups)
        ↔ w.live_file_exists = true) := by
  obtain ⟨wl, wf, wb⟩ := w
  cases wf with
  | true =>
    have hmain : import_sql execute_batch (some sql_raw) ts ⟨wl, true, wb⟩
        = (.error (.database ("SQL import failed: " ++ e)),
           ⟨wl, true, cleanup_db_backups (wb ++ ["db_backup_" ++ ts])⟩) := by
      unfold import_sql backup_database_file
      simp [hexec]
    refine ⟨?_, ?_, ?_⟩
    · rw [hmain]
      simp
    · rw [hmain]
    · rw [hmain]
      exact ⟨fun _ => rfl, fun _ => mem_cleanup_append wb _⟩
  | false =>
    have hmain : import_sql execute_batch (some sql_raw) ts ⟨wl, false, wb⟩
        = (.error (.database ("SQL import failed: " ++ e)), ⟨wl, false, wb⟩) := by
      unfold import_sql backup_database_file
      simp [hexec]
    refine ⟨?_, ?_, ?_⟩
    · rw [hmain]
      simp
    · rw [hmain]
    · rw [hmain]
      constructor
      · intro hmem
        exact absurd hmem hfresh
      · intro hf
        exact absurd hf Bool.false_ne_true

/-! ### Export (`dump_sql`, `backup.rs` lines 196–319), at the SQL-text level

The export reads an in-memory page-level snapshot of the live database. The
state it consumes is `sqlite_master` (object type, name, DDL text — SQLite
stores the original `CREATE` statement with `IF NOT EXISTS` removed) plus, for
each table, its column names (`PRAGMA table_info`) and its rows as typed SQL
values in `rowid` order (`SELECT *` without `ORDER BY`). The `Real` branch of
`format_sql_value` involves floating point and is not exercised by any claim. -/

/-- A typed SQLite value as seen by `ValueRef` (`Real` omitted: floating
point). -/
inductive SqlValue where
  | null
  | integer (i : Int)
  | text (s : String)
  | blob (bytes : List Nat)

/-- The ASCII apostrophe. -/
def squote : Char := Char.ofNat 39

/-- `text.replace('\x27', "\x27\x27")`: SQL quote-doubling. -/
def escapeQuotes (s : String) : String :=
  String.mk ((s.data.map fun c => if c = squote then [squote, squote] else [c]).flatten)

/-- One hex digit, uppercase. -/
def hexDigit (n : Nat) : Char :=
  if n < 10 then Char.ofNat (48 + n) else Char.ofNat (55 + n)

/-- `format_sql_value` (`backup.rs` lines 298–319). -/
def format_sql_value : SqlValue → String
  | .null => "NULL"
  | .integer i => toString i
  | .text t => String.mk [squote] ++ escapeQuotes t ++ String.mk [squote]
  | .blob bytes =>
    "X" ++ String.mk [squote]
      ++ String.mk ((bytes.map fun b => [hexDigit (b / 16 % 16), hexDigit (b % 16)]).flatten)
      ++ String.mk [squote]

/-- One row of `sqlite_master`: object type, name, owning table, DDL text
(`NULL` for auto-indexes). -/
structure MasterEntry where
  type : String
  name : String
  tbl_name : String
  sql : Option String

/-- Column names (in `PRAGMA table_info` order) and rows (in `rowid` order) of
one table. -/
structure TableData where
  columns : List String
  rows : List (List SqlValue)

/-- The snapshot state `dump_sql` reads. -/
structure DumpConn where
  user_version : Int
  master : List MasterEntry
  data : List (String × TableData)

/-- `str::starts_with` on ASCII patterns. -/
def strStartsWith (s pre : String) : Bool :=
  startsWithChars pre.data s.data

/-- Lexicographic comparison of character lists by code point — SQLite's
BINARY collation on valid UTF-8 text. -/
def charsLe : List Char → List Char → Bool
  | [], _ => true
  | _ :: _, [] => false
  | a :: as, b :: bs =>
    if a.toNat < b.toNat then true
    else if b.toNat < a.toNat then false
    else charsLe as bs

/-- The `ORDER BY type='table' DESC, name` comparison of the schema query
(`backup.rs` line 216): tables first, then by name. -/
def masterLe (a b : MasterEntry) : Bool :=
  let ta : Nat := if a.type == "table" then 0 else 1
  let tb : Nat := if b.type == "table" then 0 else 1
  if ta < tb then true
  else if tb < ta then false
  else charsLe a.name.data b.name.data

/-- The schema query ordering as a relation. -/
def masterOrder (a b : MasterEntry) : Prop :=
  masterLe a b = true

instance : DecidableRel masterOrder := fun a b =>
  inferInstanceAs (Decidable (masterLe a b = true))

/-- The schema query of `dump_sql` (lines 211–218): every `sqlite_master` row
with non-`NULL` DDL among tables/indexes/triggers/views, tables first then by
name. -/
def schemaEntries (conn : DumpConn) : List MasterEntry :=
  List.insertionSort masterOrder
    (conn.master.filter fun m =>
      m.sql.isSome &&
        (m.type == "table" || m.type == "index" || m.type == "trigger" || m.type == "view"))

/-- Lookup of one table's data. -/
def lookupTable (conn : DumpConn) (table : String) : Option TableData :=
  (conn.data.find? fun t => t.1 == table).map (·.2)

/-- `get_table_columns` (lines 282–295): `PRAGMA table_info` column names; a
missing table yields none. -/
def get_table_columns (conn : DumpConn) (table : String) : List String :=
  ((lookupTable conn table).map (·.columns)).getD []

/-- `dump_sql` (lines 196–279): header comments with the generation timestamp
and `user_version`, pragmas, `BEGIN TRANSACTION`, the DDL of every
non-`sqlite_`-internal object (tables first), one `INSERT` per row of every
exported table in dependency order, `COMMIT`, re-enable foreign keys. -/
def dump_sql (conn : DumpConn) (timestamp : String) : String :=
  let user_version := conn.user_version
  let header :=
    "-- CC Switch SQLite Export\n-- Generated: " ++ timestamp
      ++ "\n-- user_version: " ++ toString user_version ++ "\n"
      ++ "PRAGMA foreign_keys=OFF;\n"
      ++ "PRAGMA user_version=" ++ toString user_version ++ ";\n"
      ++ "BEGIN TRANSACTION;\n"
  let entries := schemaEntries conn
  let schemaText := String.join (entries.map fun m =>
    if strStartsWith m.name "sqlite_" then "" else (m.sql.getD "") ++ ";\n")
  let tables := (entries.filter fun m =>
    !(strStartsWith m.name "sqlite_") && m.type == "table").map (·.name)
  let dataText := String.join (tables.map fun table =>
    let columns := get_table_columns conn table
    if columns.isEmpty then ""
    else
      let rows := ((lookupTable conn table).map (·.rows)).getD []
      String.join (rows.map fun row =>
        let values := (row.take columns.length).map format_sql_value
        let cols := String.intercalate ", " (columns.map fun c => "\"" ++ c ++ "\"")
        "INSERT INTO \"" ++ table ++ "\" (" ++ cols ++ ") VALUES ("
          ++ String.intercalate ", " values ++ ");\n"))
  header ++ schemaText ++ dataText ++ "COMMIT;\nPRAGMA foreign_keys=ON;\n"

/-! ### C3: the export/import round trip

The concrete store below is exactly what the repository's schema produces
(`sqlite_master` holds the `CREATE` texts of `schema.rs` with `IF NOT EXISTS`
stripped, plus the engine's auto-objects), with two providers across two
namespaces — the claim's precondition. One provider's `name` contains the text
`sqlite_sequence`; its exported `INSERT` statement therefore contains that
substring, and `sanitize_import_sql` — which `import_sql` applies to the whole
file before executing it — deletes the entire statement, so the imported store
cannot contain the row: the round trip loses it. -/

/-- The stored DDL of the `providers` table. -/
def providersDDL : String :=
  "CREATE TABLE providers (\n                id TEXT NOT NULL,\n                app_type TEXT NOT NULL,\n                name TEXT NOT NULL,\n                settings_config TEXT NOT NULL,\n                website_url TEXT,\n                category TEXT,\n                created_at INTEGER,\n                sort_index INTEGER,\n                notes TEXT,\n                icon TEXT,\n                icon_color TEXT,\n                meta TEXT NOT NULL DEFAULT \x27\x7b\x7d\x27,\n                is_current BOOLEAN NOT NULL DEFAULT 0,\n                is_proxy_target BOOLEAN NOT NULL DEFAULT 0,\n                PRIMARY KEY (id, app_type)\n            )"

/-- The stored DDL of the `provider_endpoints` table. -/
def endpointsDDL : String :=
  "CREATE TABLE provider_endpoints (\n                id INTEGER PRIMARY KEY AUTOINCREMENT,\n                provider_id TEXT NOT NULL,\n                app_type TEXT NOT NULL,\n                url TEXT NOT NULL,\n                added_at INTEGER,\n                FOREIGN KEY (provider_id, app_type) REFERENCES providers(id, app_type) ON DELETE CASCADE\n            )"

/-- The stored DDL of the `settings` table. -/
def settingsDDL : String :=
  "CREATE TABLE settings (\n                key TEXT PRIMARY KEY,\n                value TEXT\n            )"

/-- A provider row as stored: `(id, app_type, name, settings_config,
website_url, category, created_at, sort_index, notes, icon, icon_color, meta,
is_current, is_proxy_target)`. -/
def mkProviderRowValues (id app name : String) (created : Int) : List SqlValue :=
  [.text id, .text app, .text name, .text "\x7b\x7d", .null, .null,
   .integer created, .null, .null, .null, .null, .text "\x7b\x7d",
   .integer 0, .integer 0]

/-- The exported store: two providers across two namespaces; the `codex` one is
named `sqlite_sequence mirror`. -/
def c3Conn : DumpConn :=
  { user_version := 2
    master :=
      [{ type := "table", name := "providers", tbl_name := "providers",
         sql := some providersDDL },
       { type := "index", name := "sqlite_autoindex_providers_1",
         tbl_name := "providers", sql := none },
       { type := "table", name := "provider_endpoints",
         tbl_name := "provider_endpoints", sql := some endpointsDDL },
       { type := "table", name := "sqlite_sequence", tbl_name := "sqlite_sequence",
         sql := some "CREATE TABLE sqlite_sequence(name,seq)" },
       { type := "table", name := "settings", tbl_name := "settings",
         sql := some settingsDDL },
       { type := "index", name := "sqlite_autoindex_settings_1",
         tbl_name := "settings", sql := none }]
    data :=
      [("providers",
        { columns := providersColumns
          rows := [mkProviderRowValues "a1" "claude" "Anthropic" 1,
                   mkProviderRowValues "provcodex7" "codex" "sqlite_sequence mirror" 2] }),
       ("provider_endpoints", { columns := endpointsColumns, rows := [] }),
       ("settings", { columns := settingsColumns, rows := [] }),
       ("sqlite_sequence", { columns := ["name", "seq"], rows := [] })] }

set_option maxRecDepth 100000 in
/-- **C3.** The exported SQL text contains the `codex` provider's row (its id
`provcodex7` occurs in its `INSERT` statement and nowhere else), but after
`import_sql`'s sanitation — the first thing the import applies to the file, the
only text the scratch database ever executes — the id no longer occurs
anywhere, while the other provider's `INSERT` survives: the store the import
builds cannot contain the row `(provcodex7, codex)`, so exporting then
importing does not reproduce the provider rows. -/
theorem export_import_drops_provider_row :
    containsSubChars "provcodex7".data (dump_sql c3Conn "2026-01-01 00:00:00").data = true
    ∧ containsSubChars "provcodex7".data
        (sanitize_import_sql (dump_sql c3Conn "2026-01-01 00:00:00")).data = false
    ∧ containsSubChars "INSERT INTO \"providers\" (\"id\"".data
        (sanitize_import_sql (dump_sql c3Conn "2026-01-01 00:00:00")).data = true
    ∧ containsSubChars "a1".data
        (sanitize_import_sql (dump_sql c3Conn "2026-01-01 00:00:00")).data = true := by
  decide

/-- A world with an existing live store and an empty backups directory. -/
def c1World : BackupWorld :=
  { live := { user_version := 2
              tables := [("providers", providersColumns),
                         ("provider_endpoints", endpointsColumns),
                         ("settings", settingsColumns)] }
    live_file_exists := true
    backups := [] }

/-- An engine that rejects every batch, as SQLite does for syntactically
invalid SQL. -/
def failingBatch : String → Except String SchemaConn :=
  fun _ => .error "near BOGUS: syntax error"

theorem import_sql_invalid_batch_witness :
    failingBatch (sanitize_import_sql "BOGUS SQL") = .error "near BOGUS: syntax error"
    ∧ ("db_backup_20260101_000000" ∉ c1World.backups)
    ∧ (import_sql failingBatch (some "BOGUS SQL") "20260101_000000" c1World
        = (.error (.database ("SQL import failed: " ++ "near BOGUS: syntax error")),
           { c1World with backups := if c1World.live_file_exists
               then cleanup_db_backups (c1World.backups ++ ["db_backup_" ++ "20260101_000000"])
               else c1World.backups })
      ∧ (import_sql failingBatch (some "BOGUS SQL") "20260101_000000" c1World).2.live = c1World.live
      ∧ ((("db_backup_" ++ "20260101_000000")
            ∈ (import_sql failingBatch (some "BOGUS SQL") "20260101_000000" c1World).2.backups)
          ↔ c1World.live_file_exists = true)) :=
  ⟨rfl, by decide,
    import_sql_invalid_batch failingBatch "BOGUS SQL" "20260101_000000" c1World
      "near BOGUS: syntax error" rfl (by decide)⟩
